import Mathlib

/-!
Shallow embedding of the core of the `ryanair-flight-scanner` repository
(`src/lib/config.py`, `src/lib/models.py`, `src/lib/ryanair_internal.py`,
`src/lib/ryanair_client.py`, `src/lib/flight_analyzer.py`).

Modelling conventions:
* `datetime` instants are integers counting seconds; calendar `date`s are
  integers counting days.  Adding `timedelta(days=n)` to a date is `+ n`;
  adding `timedelta(minutes=m)` to a datetime is `+ 60 * m`.
* Python `float` prices are modelled as rationals.
* The upstream fare source (`Ryanair.get_cheapest_flights`, a network call)
  is an explicit parameter of type `FareSource`; a raised exception is an
  `Except.error` carrying the exception message.
* The `FlightAnalyzer` is written against an abstract `Client` record (the
  analyzer receives its `ryanair_client` by dependency injection); the
  repository's concrete client is `concreteClient`.
* Python dictionaries accessed with `.get(key, default)` are modelled as
  structures with `Option` fields plus the corresponding `getD` accessors.
-/

namespace RyanairScanner

/-! ## Configuration (src/lib/config.py, default environment values) -/

/-- Default of `Config.MIN_LAYOVER_MINUTES` (config.py line 51). -/
def MIN_LAYOVER_MINUTES : Int := 90

/-- Default of `Config.MAX_LAYOVER_MINUTES` (config.py line 52). -/
def MAX_LAYOVER_MINUTES : Int := 360

/-- `self.min_layover = timedelta(minutes=MIN_LAYOVER_MINUTES)` (flight_analyzer.py
line 27), expressed in seconds. -/
def min_layover : Int := 60 * MIN_LAYOVER_MINUTES

/-- `self.max_layover = timedelta(minutes=MAX_LAYOVER_MINUTES)` (flight_analyzer.py
line 28), expressed in seconds. -/
def max_layover : Int := 60 * MAX_LAYOVER_MINUTES

/-! ## Data model (src/lib/models.py) -/

/-- `PassengerInfo` (models.py).  The pydantic `ge` bounds make all counts
natural numbers. -/
structure PassengerInfo where
  adults : Nat
  teens : Nat := 0
  children : Nat := 0
  infants : Nat := 0
deriving DecidableEq

/-- `DateFlexibility` (models.py).  Both fields default to 0 and are
constrained to be non-negative, hence `Nat`. -/
structure DateFlexibility where
  departure : Nat := 0
  return_date : Nat := 0
deriving DecidableEq

/-- `FlightSearchRequest` (models.py).  Field defaults mirror the pydantic
defaults; `departure_date` is a calendar date (day count). -/
structure FlightSearchRequest where
  origin : String
  destination : String
  departure_date : Int
  return_date : Option Int := none
  passengers : PassengerInfo
  date_flexibility : Option DateFlexibility := none
  max_connections : Nat := 1
  currency : String := "EUR"
  include_connections : Bool := true
  market : String := "EN"
  max_price : Option Rat := none
  promo_code : Option String := none
deriving DecidableEq

/-- The `regular_fare` dictionary built by `_convert_ryanair_flight`
(ryanair_client.py lines 73-76): keys `amount` and `currency`, read back with
`.get("amount", 0)` / `.get("currency", "EUR")`, so both are optional. -/
structure Fare where
  amount : Option Rat := none
  currency : Option String := none
deriving DecidableEq

/-- `RyanairFlightResponse` (models.py).  Instants are in seconds. -/
structure RyanairFlightResponse where
  flight_number : String
  origin : String
  destination : String
  departure_time : Int
  arrival_time : Int
  duration_minutes : Option Int := none
  regular_fare : Option Fare := none
  operator : String := "Ryanair"
deriving DecidableEq

/-- `FlightSegment` (models.py).  The code always sets `price` and
`currency` when constructing a segment, so they are not optional here. -/
structure FlightSegment where
  leg_type : String
  segment_index : Nat
  origin_airport : String
  destination_airport : String
  departure_datetime : Int
  arrival_datetime : Int
  flight_number : String
  operator : String
  duration_minutes : Int
  price : Rat
  currency : String
deriving DecidableEq

/-- `LayoverInfo` (models.py). -/
structure LayoverInfo where
  airport : String
  duration_minutes : Int
deriving DecidableEq

/-- `FlightOption` (models.py): `type` is `"direct"` or `"one-stop"`. -/
structure FlightOption where
  type : String
  total_price : Rat
  currency : String
  legs : List FlightSegment
  layovers : List LayoverInfo := []
deriving DecidableEq

/-- `FlightSearchResponse` (models.py), restricted to the fields the
analyzer actually sets (`flights`, `search_request`, `total_results`,
the two counts and `error`; `flight_options`/`search_query` are aliases
filled in by `model_post_init` from these). -/
structure FlightSearchResponse where
  flights : List FlightOption
  search_request : FlightSearchRequest
  total_results : Nat
  direct_flights_count : Nat
  connecting_flights_count : Nat
  error : Option String := none
deriving DecidableEq

/-! ## Raw upstream flights (src/lib/ryanair_internal.py) -/

/-- The `Flight` dataclass of ryanair_internal.py.  Note it has *no*
`arrivalTime` and no `duration` attribute. -/
structure Flight where
  departureTime : Int
  flightNumber : String
  price : Rat
  currency : String
  origin : String
  originFull : String
  destination : String
  destinationFull : String
deriving DecidableEq

/-- Abstraction of one `Ryanair.get_cheapest_flights(airport, d, d)` call
(a network request): given the departure airport and a calendar date it
either returns the day's flights or raises. -/
def FareSource : Type := String → Int → Except String (List Flight)

/-! ## RyanairAPIClient (src/lib/ryanair_client.py) -/

/-- `_estimate_flight_duration`'s `route_durations` table
(ryanair_client.py lines 106-112), in minutes. -/
def route_durations : List ((String × String) × Int) :=
  [(("STN", "SKG"), 200),
   (("STN", "BGY"), 120),
   (("STN", "WMI"), 140),
   (("BGY", "SKG"), 140),
   (("WMI", "SKG"), 160)]

/-- `RyanairAPIClient._estimate_flight_duration` (ryanair_client.py lines
103-124): table lookup in both directions, else 150 minutes. -/
def _estimate_flight_duration (origin destination : String) : Int :=
  match route_durations.lookup (origin, destination) with
  | some d => d
  | none =>
    match route_durations.lookup (destination, origin) with
    | some d => d
    | none => 150

/-- `RyanairAPIClient._convert_ryanair_flight` (ryanair_client.py lines
32-101) applied to a `ryanair_internal.Flight`.  Such a flight always has
`departureTime` and `price` but never `arrivalTime` nor `duration`, so the
code always takes the estimate branch: arrival is departure plus the
estimated duration, and `regular_fare` gets both keys.  The `try` block
cannot fail on this input shape, hence always `some`. -/
def _convert_ryanair_flight (flight : Flight) (origin destination : String) :
    Option RyanairFlightResponse :=
  let estimated_duration := _estimate_flight_duration origin destination
  some
    { flight_number := flight.flightNumber
      origin := origin
      destination := destination
      departure_time := flight.departureTime
      arrival_time := flight.departureTime + 60 * estimated_duration
      duration_minutes := some estimated_duration
      regular_fare := some { amount := some flight.price, currency := some flight.currency }
      operator := "Ryanair" }

/-- The `while current_date <= date_to` loop skeleton of
`RyanairAPIClient.search_flights` (ryanair_client.py lines 157-194): the
ascending list of dates from `date_from` to `date_to` inclusive. -/
def dateRange (date_from date_to : Int) : List Int :=
  if h : date_from ≤ date_to then
    date_from :: dateRange (date_from + 1) date_to
  else
    []
termination_by (date_to + 1 - date_from).toNat
decreasing_by omega

/-- The departure-flexibility extraction shared by
`RyanairAPIClient.search_flights` (lines 139-144) and
`FlightAnalyzer._find_connections_via_hub` (lines 213-218):
`request.date_flexibility.departure` when present, else 0. -/
def flexibilityDays (request : FlightSearchRequest) : Nat :=
  match request.date_flexibility with
  | some flex => flex.departure
  | none => 0

/-- The dates `RyanairAPIClient.search_flights` queries against the fare
source: `base_departure_date - flexibility_days` through
`base_departure_date + flexibility_days` (ryanair_client.py lines 146-158). -/
def queriedDates (request : FlightSearchRequest) : List Int :=
  dateRange (request.departure_date - (flexibilityDays request : Int))
    (request.departure_date + (flexibilityDays request : Int))

/-- The sort key price of a `RyanairFlightResponse`:
`x.regular_fare.get("amount", 0) if x.regular_fare else 0`
(ryanair_client.py line 218; the same expression is used for segment
prices in flight_analyzer.py). -/
def fareAmount (x : RyanairFlightResponse) : Rat :=
  match x.regular_fare with
  | some fare => fare.amount.getD 0
  | none => 0

/-- `x.regular_fare.get("currency", "EUR") if x.regular_fare else "EUR"`
(flight_analyzer.py segment construction). -/
def fareCurrency (x : RyanairFlightResponse) : String :=
  match x.regular_fare with
  | some fare => fare.currency.getD "EUR"
  | none => "EUR"

/-- The comparison used by `converted_flights.sort(key=lambda x:
(x.departure_time, x.regular_fare.get("amount", 0) if x.regular_fare else 0))`
(ryanair_client.py lines 215-220): lexicographic on (departure time, fare). -/
def clientSortLE (a b : RyanairFlightResponse) : Bool :=
  decide (a.departure_time < b.departure_time ∨
    (a.departure_time = b.departure_time ∧ fareAmount a ≤ fareAmount b))

/-- `RyanairAPIClient.search_flights` (ryanair_client.py lines 126-226):
for each date in the flexible window query the fare source, catching and
skipping per-date failures (lines 158-191), keep only flights to the
requested destination, convert, and sort by (departure time, price).
Python's `list.sort` is a stable sort, modelled by `List.mergeSort`. -/
def client_search_flights (fetchDay : FareSource) (request : FlightSearchRequest) :
    List RyanairFlightResponse :=
  let all_flights := (queriedDates request).foldl
    (fun acc current_date =>
      match fetchDay request.origin current_date with
      | .ok daily_flights =>
          acc ++ daily_flights.filter (fun f => f.destination == request.destination)
      | .error _ => acc)
    []
  let converted_flights := all_flights.filterMap
    (fun f => _convert_ryanair_flight f request.origin request.destination)
  converted_flights.mergeSort clientSortLE

namespace RyanairAPIClient

/-- `RyanairAPIClient.get_destinations_from_origin` (ryanair_client.py
lines 271-278): unconditionally returns the empty list. -/
def get_destinations_from_origin (_origin_airport_code : String) : List String := []

end RyanairAPIClient

/-! ## FlightAnalyzer (src/lib/flight_analyzer.py) -/

/-- The client interface the analyzer consumes (its `self.client`).  Each
method may raise, modelled by `Except`. -/
structure Client where
  search_flights : FlightSearchRequest → Except String (List RyanairFlightResponse)
  get_destinations_from_origin : String → Except String (List String)

/-- The repository's concrete client: `search_flights` as above (total, given
the fare source abstraction) and the always-empty destination list. -/
def concreteClient (fetchDay : FareSource) : Client :=
  { search_flights := fun request => .ok (client_search_flights fetchDay request)
    get_destinations_from_origin := fun origin =>
      .ok (RyanairAPIClient.get_destinations_from_origin origin) }

/-- The flight-segment construction duplicated inside
`_create_connection` (flight_analyzer.py lines 360-410) and
`_convert_to_flight_option` (lines 434-454); only `segment_index`
varies between the call sites. -/
def segmentOfFlight (idx : Nat) (f : RyanairFlightResponse) : FlightSegment :=
  { leg_type := "outbound"
    segment_index := idx
    origin_airport := f.origin
    destination_airport := f.destination
    departure_datetime := f.departure_time
    arrival_datetime := f.arrival_time
    flight_number := f.flight_number
    operator := f.operator
    duration_minutes := f.duration_minutes.getD 0
    price := fareAmount f
    currency := fareCurrency f }

/-- `FlightAnalyzer._create_connection` (flight_analyzer.py lines 345-427):
reject the pair unless `min_layover <= layover <= max_layover` (line 356,
timedelta comparison, here in seconds); otherwise build the one-stop
option.  The layover is positive in the accepted branch, so integer
division by 60 agrees with Python's `int(total_seconds() / 60)`. -/
def _create_connection (first_flight second_flight : RyanairFlightResponse)
    (hub : String) : Option FlightOption :=
  let layover_time := second_flight.departure_time - first_flight.arrival_time
  if layover_time < min_layover ∨ layover_time > max_layover then
    none
  else
    let first_segment := segmentOfFlight 0 first_flight
    let second_segment := segmentOfFlight 1 second_flight
    let layover : LayoverInfo := { airport := hub, duration_minutes := layover_time / 60 }
    let total_price := first_segment.price + second_segment.price
    some
      { type := "one-stop"
        total_price := total_price
        currency := first_segment.currency
        legs := [first_segment, second_segment]
        layovers := [layover] }

/-- `FlightAnalyzer._convert_to_flight_option` (flight_analyzer.py lines
429-466).  Nothing in the `try` body can fail on this data, hence always
`some`. -/
def _convert_to_flight_option (flight : RyanairFlightResponse) : Option FlightOption :=
  let segment := segmentOfFlight 0 flight
  some
    { type := "direct"
      total_price := segment.price
      currency := segment.currency
      legs := [segment]
      layovers := [] }

/-- `FlightAnalyzer._match_flight_legs` (flight_analyzer.py lines 322-343):
full cross product, keeping the pairs for which `_create_connection`
returns an option; the per-pair `try` never fires since
`_create_connection` is total. -/
def _match_flight_legs (first_leg_flights second_leg_flights : List RyanairFlightResponse)
    (hub : String) : List FlightOption :=
  first_leg_flights.flatMap (fun first_flight =>
    second_leg_flights.filterMap (fun second_flight =>
      _create_connection first_flight second_flight hub))

/-- The curated `major_hubs` list (flight_analyzer.py lines 160-174). -/
def major_hubs : List String :=
  ["STN", "DUB", "BGY", "CRL", "BVA", "CIA", "MAD", "BCN", "OPO", "EDI", "MAN", "BRE", "WMI"]

/-- `FlightAnalyzer._get_potential_hubs` (flight_analyzer.py lines 157-179):
the curated list minus origin and destination, in declaration order. -/
def _get_potential_hubs (origin destination : String) : List String :=
  major_hubs.filter (fun hub => !([origin, destination].contains hub))

/-- The first-leg request built in `_find_connections_via_hub`
(flight_analyzer.py lines 189-197); unspecified fields take the pydantic
defaults. -/
def firstLegRequest (request : FlightSearchRequest) (hub : String) : FlightSearchRequest :=
  { origin := request.origin
    destination := hub
    departure_date := request.departure_date
    return_date := none
    passengers := request.passengers
    date_flexibility := request.date_flexibility
    max_connections := 0 }

/-- The second-leg request built in `_find_connections_via_hub`
(flight_analyzer.py lines 241-252): zero further flexibility. -/
def secondLegRequest (request : FlightSearchRequest) (hub : String)
    (search_date : Int) : FlightSearchRequest :=
  { origin := hub
    destination := request.destination
    departure_date := search_date
    return_date := none
    passengers := request.passengers
    date_flexibility := some { departure := 0, return_date := 0 }
    max_connections := 0 }

/-- The `range(-departure_flexibility_days, departure_flexibility_days + 1)`
offsets of the second-leg loop (flight_analyzer.py lines 223-225). -/
def offsetRange (flex : Nat) : List Int :=
  (List.range (2 * flex + 1)).map (fun (i : Nat) => (i : Int) - (flex : Int))

/-- `FlightAnalyzer._search_direct_flights` (flight_analyzer.py lines
70-90): fetch from the client (errors propagate — there is no `try` around
the await) and convert each flight, skipping conversion failures. -/
def _search_direct_flights (client : Client) (request : FlightSearchRequest) :
    Except String (List FlightOption) :=
  match client.search_flights request with
  | .error e => .error e
  | .ok ryanair_flights => .ok (ryanair_flights.filterMap _convert_to_flight_option)

/-- `FlightAnalyzer._find_connections_via_hub` (flight_analyzer.py lines
181-290).  The body is wrapped in a `try` whose handler returns the (still
empty) accumulated list, so the function itself never raises.  Per-offset
second-leg failures are caught and skipped inside the loop. -/
def _find_connections_via_hub (client : Client) (request : FlightSearchRequest)
    (hub : String) : List FlightOption :=
  let body : Except String (List FlightOption) :=
    match client.search_flights (firstLegRequest request hub) with
    | .error e => .error e
    | .ok first_leg_flights =>
      if first_leg_flights.isEmpty then
        .ok []
      else
        let departure_flexibility_days := flexibilityDays request
        let all_second_leg_flights := (offsetRange departure_flexibility_days).foldl
          (fun acc days_offset =>
            match client.search_flights
                (secondLegRequest request hub (request.departure_date + days_offset)) with
            | .ok current_second_leg_flights => acc ++ current_second_leg_flights
            | .error _ => acc)
          []
        if all_second_leg_flights.isEmpty then
          .ok []
        else
          .ok (_match_flight_legs first_leg_flights all_second_leg_flights hub)
  match body with
  | .ok connections => connections
  | .error _ => []

/-- `FlightAnalyzer._search_connecting_flights` (flight_analyzer.py lines
92-113): accumulate connections over all hubs; the per-hub `try` never
fires because `_find_connections_via_hub` never raises. -/
def _search_connecting_flights (client : Client) (request : FlightSearchRequest) :
    List FlightOption :=
  (_get_potential_hubs request.origin request.destination).foldl
    (fun acc hub => acc ++ _find_connections_via_hub client request hub) []

/-- The price comparison of `all_flights.sort(key=lambda x: x.total_price)`
(flight_analyzer.py lines 49 and 147). -/
def priceLE (a b : FlightOption) : Bool :=
  decide (a.total_price ≤ b.total_price)

/-- Python's stable in-place `sort(key=lambda x: x.total_price)`. -/
def sortByPrice (l : List FlightOption) : List FlightOption :=
  l.mergeSort priceLE

/-- The per-destination sub-request built in `_search_any_destination`
(flight_analyzer.py lines 129-137): same passenger/date data, the given
destination, `max_connections = 0`. -/
def anyDestRequest (request : FlightSearchRequest) (destination : String) :
    FlightSearchRequest :=
  { origin := request.origin
    destination := destination
    departure_date := request.departure_date
    return_date := request.return_date
    passengers := request.passengers
    date_flexibility := request.date_flexibility
    max_connections := 0 }

/-- The sub-requests issued by the ANY-destination loop
(`for destination in destinations[:50]`, flight_analyzer.py line 126). -/
def anyDestRequests (request : FlightSearchRequest) (destinations : List String) :
    List FlightSearchRequest :=
  (destinations.take 50).map (anyDestRequest request)

/-- The accumulation loop of `_search_any_destination` (flight_analyzer.py
lines 124-144): per-destination failures are caught and skipped. -/
def collectAnyFlights (client : Client) (requests : List FlightSearchRequest) :
    List FlightOption :=
  requests.foldl
    (fun acc dest_request =>
      match _search_direct_flights client dest_request with
      | .ok direct_flights => acc ++ direct_flights
      | .error _ => acc)
    []

/-- `FlightAnalyzer._search_any_destination` (flight_analyzer.py lines
115-155).  The directory call is not wrapped in a `try`, so its failure
propagates to `search_flights`'s top-level handler.  The response reports
`len(all_flights)` as both `total_results` and `direct_flights_count`
while truncating `flights` to the first 100 sorted options. -/
def _search_any_destination (client : Client) (request : FlightSearchRequest) :
    Except String FlightSearchResponse :=
  match client.get_destinations_from_origin request.origin with
  | .error e => .error e
  | .ok destinations =>
    let all_flights := collectAnyFlights client (anyDestRequests request destinations)
    let sorted_flights := sortByPrice all_flights
    .ok
      { flights := sorted_flights.take 100
        search_request := request
        total_results := all_flights.length
        direct_flights_count := all_flights.length
        connecting_flights_count := 0
        error := none }

/-- Python's `str.upper()` used by `request.destination.upper()`
(flight_analyzer.py line 36), modelled character-wise. -/
def upper (s : String) : String := String.mk (s.data.map Char.toUpper)

/-- The `try` body of `FlightAnalyzer.search_flights` (flight_analyzer.py
lines 34-57): dispatch on the case-insensitive `"ANY"` sentinel, else
direct search, optional connection search, and merge-and-rank. -/
def searchPipeline (client : Client) (request : FlightSearchRequest) :
    Except String FlightSearchResponse :=
  if upper request.destination == "ANY" then
    _search_any_destination client request
  else
    match _search_direct_flights client request with
    | .error e => .error e
    | .ok direct_flights =>
      let connecting_flights :=
        if request.max_connections > 0 then
          _search_connecting_flights client request
        else
          []
      let all_flights := sortByPrice (direct_flights ++ connecting_flights)
      .ok
        { flights := all_flights
          search_request := request
          total_results := all_flights.length
          direct_flights_count := direct_flights.length
          connecting_flights_count := connecting_flights.length
          error := none }

/-- `FlightAnalyzer.search_flights` (flight_analyzer.py lines 30-68): the
single top-level recovery boundary — any exception escaping the pipeline
is converted into an empty response with the error message set. -/
def search_flights (client : Client) (request : FlightSearchRequest) :
    FlightSearchResponse :=
  match searchPipeline client request with
  | .ok response => response
  | .error e =>
    { flights := []
      search_request := request
      total_results := 0
      direct_flights_count := 0
      connecting_flights_count := 0
      error := some e }

end RyanairScanner

namespace RyanairScanner

/-! ## Helper lemmas -/

/-- The date loop of the client enumerates an arithmetic range. -/
theorem dateRange_eq_map_range :
    ∀ (n : Nat) (lo hi : Int), hi + 1 - lo = n →
      dateRange lo hi = (List.range n).map (fun (i : Nat) => lo + (i : Int)) := by
  intro n
  induction n with
  | zero =>
    intro lo hi h
    rw [dateRange, dif_neg (by omega)]
    simp
  | succ n ih =>
    intro lo hi h
    rw [dateRange, dif_pos (by omega : lo ≤ hi), ih (lo + 1) hi (by omega),
      List.range_succ_eq_map]
    simp only [List.map_cons, Nat.cast_zero, add_zero, List.map_map]
    refine congrArg (List.cons lo) (List.map_congr_left ?_)
    intro i _
    simp only [Function.comp_apply]
    push_cast
    ring

/-- A plain direct request used to instantiate theorems: no flexibility,
fixed destination. -/
def plainRequest : FlightSearchRequest :=
  { origin := "DUB", destination := "STN", departure_date := 20000,
    passengers := { adults := 1 } }

/-- C5: For every base date and every flexibility value `flex_days >= 0`, the
set of dates queried against the fare source is exactly the `2*flex_days + 1`
distinct consecutive calendar dates from `base_date - flex_days` through
`base_date + flex_days`, issued in ascending order, and `flex_days = 0`
queries exactly the single date `base_date`.  Stated both for the dates the
client-level fetch loop walks (`queriedDates`) and for the second-leg offset
loop of the connection search (`offsetRange`). -/
theorem C5_date_expander (request : FlightSearchRequest) :
    queriedDates request =
      (List.range (2 * flexibilityDays request + 1)).map
        (fun (i : Nat) =>
          request.departure_date - (flexibilityDays request : Int) + (i : Int))
    ∧ (queriedDates request).length = 2 * flexibilityDays request + 1
    ∧ (queriedDates request).Pairwise (fun a b => a < b)
    ∧ (∀ d : Int, d ∈ queriedDates request ↔
        request.departure_date - (flexibilityDays request : Int) ≤ d ∧
          d ≤ request.departure_date + (flexibilityDays request : Int))
    ∧ (flexibilityDays request = 0 → queriedDates request = [request.departure_date])
    ∧ (∀ flex : Nat, (offsetRange flex).map (fun off => request.departure_date + off) =
        (List.range (2 * flex + 1)).map
          (fun (i : Nat) => request.departure_date - (flex : Int) + (i : Int))) := by
  have hmap := dateRange_eq_map_range (2 * flexibilityDays request + 1)
    (request.departure_date - (flexibilityDays request : Int))
    (request.departure_date + (flexibilityDays request : Int)) (by push_cast; ring)
  have hq : queriedDates request =
      (List.range (2 * flexibilityDays request + 1)).map
        (fun (i : Nat) =>
          request.departure_date - (flexibilityDays request : Int) + (i : Int)) := hmap
  refine ⟨hq, ?_, ?_, ?_, ?_, ?_⟩
  · rw [hq]
    simp
  · rw [hq, List.pairwise_map]
    exact (List.pairwise_lt_range _).imp (by intro a b hab; omega)
  · intro d
    rw [hq]
    simp only [List.mem_map, List.mem_range]
    constructor
    · rintro ⟨i, hi, rfl⟩
      omega
    · rintro ⟨h1, h2⟩
      refine ⟨(d - (request.departure_date - (flexibilityDays request : Int))).toNat,
        by omega, by omega⟩
  · intro h0
    rw [hq, h0, show List.range 1 = [0] from rfl]
    simp
  · intro flex
    unfold offsetRange
    rw [List.map_map]
    refine List.map_congr_left ?_
    intro i _
    simp only [Function.comp_apply]
    ring

/-- C5 witness: with no flexibility the single base date is queried. -/
theorem C5_date_expander_witness :
    flexibilityDays plainRequest = 0 ∧ queriedDates plainRequest = [20000] :=
  ⟨rfl, (C5_date_expander plainRequest).2.2.2.2.1 rfl⟩

/-- C2: a pair of first-leg and second-leg flights yields a one-stop
itinerary iff the layover `second.departure_time - first.arrival_time` lies
in the inclusive window `[min_layover, max_layover]` (defaults 90 and 360
minutes, i.e. 5400 and 21600 seconds); the matcher's output contains exactly
the options produced from such pairs, and nothing is raised for a discarded
pair (`_create_connection` and `_match_flight_legs` are total functions). -/
theorem C2_connection_window :
    min_layover = 60 * 90 ∧ max_layover = 60 * 360
    ∧ (∀ (first_flight second_flight : RyanairFlightResponse) (hub : String),
        (_create_connection first_flight second_flight hub).isSome ↔
          (min_layover ≤ second_flight.departure_time - first_flight.arrival_time ∧
            second_flight.departure_time - first_flight.arrival_time ≤ max_layover))
    ∧ (∀ (firsts seconds : List RyanairFlightResponse) (hub : String) (c : FlightOption),
        c ∈ _match_flight_legs firsts seconds hub ↔
          ∃ f, f ∈ firsts ∧ ∃ s, s ∈ seconds ∧
            _create_connection f s hub = some c) := by
  refine ⟨rfl, rfl, ?_, ?_⟩
  · intro f s hub
    simp only [_create_connection]
    split
    · rename_i hout
      simp only [Option.isSome_none, Bool.false_eq_true, false_iff]
      omega
    · rename_i hout
      simp only [Option.isSome_some]
      constructor
      · intro _
        omega
      · intro _
        trivial
  · intro firsts seconds hub c
    simp [_match_flight_legs]

/-- C8: for every assembled itinerary the total price is the sum of the
per-leg prices, where a leg with a missing fare record contributes 0, and
the currency is taken from the first leg without conversion (this holds
with no assumption relating the two legs' currencies). -/
theorem C8_price_and_currency :
    (∀ (first_flight second_flight : RyanairFlightResponse) (hub : String)
        (c : FlightOption),
        _create_connection first_flight second_flight hub = some c →
          c.total_price = fareAmount first_flight + fareAmount second_flight ∧
            c.currency = fareCurrency first_flight)
    ∧ (∀ (flight : RyanairFlightResponse) (c : FlightOption),
        _convert_to_flight_option flight = some c →
          c.total_price = fareAmount flight ∧ c.currency = fareCurrency flight)
    ∧ (∀ flight : RyanairFlightResponse,
        flight.regular_fare = none → fareAmount flight = 0) := by
  refine ⟨?_, ?_, ?_⟩
  · intro f s hub c h
    simp only [_create_connection] at h
    split at h
    · exact absurd h (by simp)
    · simp only [Option.some.injEq] at h
      subst h
      exact ⟨rfl, rfl⟩
  · intro flight c h
    simp only [_convert_to_flight_option, Option.some.injEq] at h
    subst h
    exact ⟨rfl, rfl⟩
  · intro flight h
    unfold fareAmount
    rw [h]

/-- First leg for the C8 witness: fare 10 EUR, arriving at second 6000. -/
def firstLegFlightW : RyanairFlightResponse :=
  { flight_number := "FR 1", origin := "DUB", destination := "STN",
    departure_time := 0, arrival_time := 6000, duration_minutes := some 100,
    regular_fare := some { amount := some 10, currency := some "EUR" } }

/-- Second leg for the C8 witness: *no* fare record at all (contributes 0)
and departing 7200 seconds (120 minutes) after the first leg arrives. -/
def secondLegFlightW : RyanairFlightResponse :=
  { flight_number := "FR 2", origin := "STN", destination := "BGY",
    departure_time := 13200, arrival_time := 20400, duration_minutes := none,
    regular_fare := none }

/-- The connection `_create_connection` builds from the two witness legs. -/
def connectionW : FlightOption :=
  { type := "one-stop"
    total_price := 10
    currency := "EUR"
    legs := [segmentOfFlight 0 firstLegFlightW, segmentOfFlight 1 secondLegFlightW]
    layovers := [{ airport := "STN", duration_minutes := 120 }] }

/-- The two witness legs do assemble into `connectionW`. -/
theorem connectionW_eq :
    _create_connection firstLegFlightW secondLegFlightW "STN" = some connectionW := by
  simp only [_create_connection, firstLegFlightW, secondLegFlightW, connectionW,
    segmentOfFlight, fareAmount, fareCurrency, min_layover, max_layover,
    MIN_LAYOVER_MINUTES, MAX_LAYOVER_MINUTES]
  norm_num

/-- C8 witness: a concrete pair whose second leg is missing its fare record;
the total is the first leg's 10 and the currency the first leg's EUR. -/
theorem C8_price_and_currency_witness :
    _create_connection firstLegFlightW secondLegFlightW "STN" = some connectionW
    ∧ (connectionW.total_price = fareAmount firstLegFlightW + fareAmount secondLegFlightW
        ∧ connectionW.currency = fareCurrency firstLegFlightW) :=
  ⟨connectionW_eq,
    C8_price_and_currency.1 firstLegFlightW secondLegFlightW "STN" connectionW connectionW_eq⟩

/-- Transitivity of the client's (departure time, fare) comparison. -/
theorem clientSortLE_trans : ∀ (a b c : RyanairFlightResponse),
    clientSortLE a b → clientSortLE b c → clientSortLE a c := by
  intro a b c hab hbc
  simp only [clientSortLE, decide_eq_true_eq] at hab hbc ⊢
  rcases hab with h1 | ⟨h1, h1'⟩ <;> rcases hbc with h2 | ⟨h2, h2'⟩
  · exact Or.inl (by omega)
  · exact Or.inl (by omega)
  · exact Or.inl (by omega)
  · exact Or.inr ⟨h1.trans h2, h1'.trans h2'⟩

/-- Totality of the client's (departure time, fare) comparison. -/
theorem clientSortLE_total : ∀ (a b : RyanairFlightResponse),
    clientSortLE a b || clientSortLE b a := by
  intro a b
  simp only [clientSortLE, Bool.or_eq_true, decide_eq_true_eq]
  rcases lt_trichotomy a.departure_time b.departure_time with h | h | h
  · exact Or.inl (Or.inl h)
  · rcases le_total (fareAmount a) (fareAmount b) with hf | hf
    · exact Or.inl (Or.inr ⟨h, hf⟩)
    · exact Or.inr (Or.inr ⟨h.symm, hf⟩)
  · exact Or.inr (Or.inl h)

/-- C10: the list returned by the client-level search is always sorted
ascending by (departure time, then fare amount with a missing fare treated
as 0), not left in raw per-date concatenation order. -/
theorem C10_client_sort (fetchDay : FareSource) (request : FlightSearchRequest) :
    (client_search_flights fetchDay request).Pairwise
      (fun a b => a.departure_time < b.departure_time ∨
        (a.departure_time = b.departure_time ∧ fareAmount a ≤ fareAmount b)) := by
  simp only [client_search_flights]
  exact (List.sorted_mergeSort clientSortLE_trans clientSortLE_total _).imp
    (fun h => of_decide_eq_true h)

/-- Replace every failing day of a fare source by a day with no flights. -/
def okOnly (fetchDay : FareSource) : FareSource := fun origin d =>
  match fetchDay origin d with
  | .ok daily_flights => .ok daily_flights
  | .error _ => .ok []

/-- A fare source for scenario D: the base date raises, the next day has a
single DUB→STN flight, every other day is empty. -/
def scenarioFareSource : FareSource := fun _ d =>
  if d = 0 then .error "upstream timeout"
  else if d = 1 then
    .ok [{ departureTime := 100000, flightNumber := "FR 123", price := 30,
           currency := "EUR", origin := "DUB", originFull := "Dublin",
           destination := "STN", destinationFull := "London Stansted" }]
  else .ok []

/-- Scenario D request: base date 0 with one day of flexibility either way. -/
def scenarioRequest : FlightSearchRequest :=
  { origin := "DUB", destination := "STN", departure_date := 0,
    passengers := { adults := 1 },
    date_flexibility := some { departure := 1, return_date := 0 } }

/-- C7: a failure on one date of the batch is skipped without aborting the
remaining dates — the fetch result is unchanged if every failing day is
replaced by an empty day, so it contains exactly the successful days'
results; and in scenario D (one day errors, another returns one flight)
the fetcher returns that one flight and, the function being total, no
exception surfaces. -/
theorem C7_leg_fetcher_skips_failures :
    (∀ (fetchDay : FareSource) (request : FlightSearchRequest),
        client_search_flights fetchDay request =
          client_search_flights (okOnly fetchDay) request)
    ∧ client_search_flights scenarioFareSource scenarioRequest =
        [{ flight_number := "FR 123", origin := "DUB", destination := "STN",
           departure_time := 100000, arrival_time := 109000,
           duration_minutes := some 150,
           regular_fare := some { amount := some 30, currency := some "EUR" },
           operator := "Ryanair" }] := by
  constructor
  · intro fetchDay request
    simp only [client_search_flights]
    have hfold : (queriedDates request).foldl
        (fun acc current_date =>
          match fetchDay request.origin current_date with
          | .ok daily_flights =>
              acc ++ daily_flights.filter (fun f => f.destination == request.destination)
          | .error _ => acc)
        [] =
      (queriedDates request).foldl
        (fun acc current_date =>
          match okOnly fetchDay request.origin current_date with
          | .ok daily_flights =>
              acc ++ daily_flights.filter (fun f => f.destination == request.destination)
          | .error _ => acc)
        [] := by
      refine List.foldl_ext _ _ _ ?_
      intro acc d _
      simp only [okOnly]
      cases h : fetchDay request.origin d with
      | ok daily_flights => simp
      | error e => simp
    rw [hfold]
  · have hq : queriedDates scenarioRequest = [-1, 0, 1] := by
      have h3 := dateRange_eq_map_range 3 (-1) 1 (by norm_num)
      calc queriedDates scenarioRequest = dateRange (-1) 1 := rfl
        _ = (List.range 3).map (fun (i : Nat) => -1 + (i : Int)) := h3
        _ = [-1, 0, 1] := by decide
    have h1 : client_search_flights scenarioFareSource scenarioRequest =
        List.mergeSort
          [{ flight_number := "FR 123", origin := "DUB", destination := "STN",
             departure_time := 100000, arrival_time := 109000,
             duration_minutes := some 150,
             regular_fare := some { amount := some 30, currency := some "EUR" },
             operator := "Ryanair" }] clientSortLE := by
      simp only [client_search_flights, hq]
      rfl
    rw [h1, List.mergeSort_singleton]

/-- Transitivity of the price comparison used by merge-and-rank. -/
theorem priceLE_trans : ∀ (a b c : FlightOption),
    priceLE a b → priceLE b c → priceLE a c := by
  intro a b c hab hbc
  simp only [priceLE, decide_eq_true_eq] at hab hbc ⊢
  exact hab.trans hbc

/-- Totality of the price comparison used by merge-and-rank. -/
theorem priceLE_total : ∀ (a b : FlightOption), priceLE a b || priceLE b a := by
  intro a b
  simp only [priceLE, Bool.or_eq_true, decide_eq_true_eq]
  exact le_total _ _

/-- The ranked list is pairwise non-decreasing in price. -/
theorem sortByPrice_pairwise (l : List FlightOption) :
    (sortByPrice l).Pairwise (fun a b => a.total_price ≤ b.total_price) :=
  (List.sorted_mergeSort priceLE_trans priceLE_total l).imp
    (fun h => of_decide_eq_true h)

/-- Stability of the ranking: within each equal-price class the sorted
list keeps exactly the input's subsequence. -/
theorem sortByPrice_stable (l : List FlightOption) (p : Rat) :
    (sortByPrice l).filter (fun o => decide (o.total_price = p)) =
      l.filter (fun o => decide (o.total_price = p)) := by
  have hperm : List.Perm (sortByPrice l) l := List.mergeSort_perm l priceLE
  have hsub : List.Sublist (l.filter (fun o => decide (o.total_price = p))) (sortByPrice l) := by
    apply List.sublist_mergeSort priceLE_trans priceLE_total
    · apply List.pairwise_of_forall_mem_list
      intro a ha b hb
      simp only [List.mem_filter, decide_eq_true_eq] at ha hb
      simp only [priceLE, decide_eq_true_eq, ha.2, hb.2, le_refl]
    · exact List.filter_sublist l
  have hsub2 : List.Sublist (l.filter (fun o => decide (o.total_price = p)))
      ((sortByPrice l).filter (fun o => decide (o.total_price = p))) := by
    have h := hsub.filter (fun o => decide (o.total_price = p))
    simpa [List.filter_filter] using h
  have hlen : ((sortByPrice l).filter (fun o => decide (o.total_price = p))).length =
      (l.filter (fun o => decide (o.total_price = p))).length :=
    (hperm.filter _).length_eq
  exact (hsub2.eq_of_length hlen.symm).symm

/-- C3: in every search response the flights list is pairwise sorted
ascending by total price (hence for all adjacent itineraries
`price(i) <= price(i+1)`), and the ranking sort is stable: for every price,
the equal-price itineraries appear in exactly their pre-sort input order
(the input being direct itineraries followed by connecting ones, in fetch
order). -/
theorem C3_sorted_and_stable :
    (∀ (client : Client) (request : FlightSearchRequest),
        (search_flights client request).flights.Pairwise
          (fun a b => a.total_price ≤ b.total_price))
    ∧ (∀ (l : List FlightOption) (p : Rat),
        (sortByPrice l).filter (fun o => decide (o.total_price = p)) =
          l.filter (fun o => decide (o.total_price = p))) := by
  refine ⟨?_, sortByPrice_stable⟩
  intro client request
  unfold search_flights
  cases hp : searchPipeline client request with
  | error e => simp
  | ok response =>
    simp only []
    unfold searchPipeline at hp
    split at hp
    · unfold _search_any_destination at hp
      cases hdest : client.get_destinations_from_origin request.origin with
      | error e => rw [hdest] at hp; cases hp
      | ok destinations =>
        rw [hdest] at hp
        simp only [Except.ok.injEq] at hp
        subst hp
        exact (sortByPrice_pairwise _).sublist (List.take_sublist _ _)
    · cases hdir : _search_direct_flights client request with
      | error e => rw [hdir] at hp; cases hp
      | ok direct_flights =>
        rw [hdir] at hp
        simp only [Except.ok.injEq] at hp
        subst hp
        exact sortByPrice_pairwise _

/-- C4: whenever the pipeline inside `search_flights` fails, the caller
still receives a structurally valid response: empty flights list,
`total_results` and both counts zero, and the error message recorded —
the exception never propagates (`search_flights` is a total function). -/
theorem C4_failure_policy (client : Client) (request : FlightSearchRequest)
    (e : String) (h : searchPipeline client request = .error e) :
    search_flights client request =
      { flights := [], search_request := request, total_results := 0,
        direct_flights_count := 0, connecting_flights_count := 0,
        error := some e } := by
  unfold search_flights
  rw [h]

/-- A client whose every method raises. -/
def failingClient : Client :=
  { search_flights := fun _ => .error "boom"
    get_destinations_from_origin := fun _ => .error "boom" }

/-- C4 witness: with a client that raises, the search returns the empty
response carrying the error message. -/
theorem C4_failure_policy_witness :
    search_flights failingClient plainRequest =
      { flights := [], search_request := plainRequest, total_results := 0,
        direct_flights_count := 0, connecting_flights_count := 0,
        error := some "boom" } :=
  C4_failure_policy failingClient plainRequest "boom" rfl

/-- A fare source with no flights on any day. -/
def emptyFareSource : FareSource := fun _ _ => .ok []

/-- A request for the ANY-destination path. -/
def anyRequest : FlightSearchRequest :=
  { origin := "DUB", destination := "ANY", departure_date := 20000,
    passengers := { adults := 1 } }

/-- C9: the concrete client's `get_destinations_from_origin` returns the
empty list for every origin, so with the repository's client every
ANY-destination search iterates over zero destinations and returns a
response with an empty flights list and all counts zero. -/
theorem C9_no_destinations :
    (∀ origin : String, RyanairAPIClient.get_destinations_from_origin origin = [])
    ∧ (∀ (fetchDay : FareSource) (request : FlightSearchRequest),
        upper request.destination = "ANY" →
          search_flights (concreteClient fetchDay) request =
            { flights := [], search_request := request, total_results := 0,
              direct_flights_count := 0, connecting_flights_count := 0,
              error := none }) := by
  refine ⟨fun _ => rfl, ?_⟩
  intro fetchDay request h
  unfold search_flights searchPipeline
  rw [show (upper request.destination == "ANY") = true by simp [h]]
  simp [_search_any_destination, concreteClient,
    RyanairAPIClient.get_destinations_from_origin, anyDestRequests,
    collectAnyFlights, sortByPrice]

/-- C9 witness: a concrete ANY request against the concrete client. -/
theorem C9_no_destinations_witness :
    search_flights (concreteClient emptyFareSource) anyRequest =
      { flights := [], search_request := anyRequest, total_results := 0,
        direct_flights_count := 0, connecting_flights_count := 0,
        error := none } :=
  C9_no_destinations.2 emptyFareSource anyRequest rfl

/-- `_convert_to_flight_option` never drops a flight. -/
theorem length_filterMap_convert (l : List RyanairFlightResponse) :
    (l.filterMap _convert_to_flight_option).length = l.length := by
  induction l with
  | nil => rfl
  | cons x xs ih => simp [List.filterMap_cons, _convert_to_flight_option, ih]

/-- C1 (amended): on every path `direct_flights_count +
connecting_flights_count` equals `total_results`; this also equals the
length of the returned flights list on the direct, connection and error
paths, but on the ANY-destination path the flights list is truncated to
100 entries while the counts are not, so there the length is
`min total_results 100`. -/
theorem C1_count_invariant_amended (client : Client) (request : FlightSearchRequest) :
    (search_flights client request).direct_flights_count +
        (search_flights client request).connecting_flights_count =
      (search_flights client request).total_results
    ∧ (search_flights client request).flights.length =
        (if upper request.destination == "ANY" then
          min (search_flights client request).total_results 100
        else
          (search_flights client request).total_results) := by
  unfold search_flights searchPipeline
  by_cases hany : (upper request.destination == "ANY") = true
  · simp only [hany, if_true]
    unfold _search_any_destination
    cases hdest : client.get_destinations_from_origin request.origin with
    | error e => simp
    | ok destinations =>
      constructor
      · simp
      · simp [sortByPrice, List.length_take, Nat.min_comm]
  · have hany' : (upper request.destination == "ANY") = false :=
      Bool.of_not_eq_true hany
    simp only [hany', Bool.false_eq_true, if_false]
    cases hdir : _search_direct_flights client request with
    | error e => simp
    | ok direct_flights =>
      constructor
      · simp [sortByPrice]
      · simp

/-- A single flight record, replicated to overflow the ANY-path cap. -/
def oneFlightC1 : RyanairFlightResponse :=
  { flight_number := "FR 1", origin := "DUB", destination := "STN",
    departure_time := 0, arrival_time := 9000, duration_minutes := some 150,
    regular_fare := some { amount := some 20, currency := some "EUR" } }

/-- A client whose directory lists one destination with 101 direct flights. -/
def overflowClient : Client :=
  { search_flights := fun _ => .ok (List.replicate 101 oneFlightC1)
    get_destinations_from_origin := fun _ => .ok ["STN"] }

/-- C1 counterexample: on the ANY-destination path with 101 gathered
flights, the counts sum to 101 but the returned flights list is truncated
to 100, so the claimed invariant fails. -/
theorem C1_count_invariant_counterexample :
    ¬ ((search_flights overflowClient anyRequest).direct_flights_count +
          (search_flights overflowClient anyRequest).connecting_flights_count =
        (search_flights overflowClient anyRequest).flights.length) := by
  have hL : collectAnyFlights overflowClient (anyDestRequests anyRequest ["STN"]) =
      (List.replicate 101 oneFlightC1).filterMap _convert_to_flight_option := rfl
  have hlen : (collectAnyFlights overflowClient
      (anyDestRequests anyRequest ["STN"])).length = 101 := by
    rw [hL, length_filterMap_convert, List.length_replicate]
  have hresp : search_flights overflowClient anyRequest =
      { flights := (sortByPrice (collectAnyFlights overflowClient
            (anyDestRequests anyRequest ["STN"]))).take 100
        search_request := anyRequest
        total_results := (collectAnyFlights overflowClient
            (anyDestRequests anyRequest ["STN"])).length
        direct_flights_count := (collectAnyFlights overflowClient
            (anyDestRequests anyRequest ["STN"])).length
        connecting_flights_count := 0
        error := none } := rfl
  rw [hresp]
  simp only [hlen, sortByPrice, List.length_take, List.length_mergeSort]
  omega

/-- Every option `_convert_to_flight_option` produces is a direct one. -/
theorem convert_type_direct (x : RyanairFlightResponse) (o : FlightOption)
    (h : _convert_to_flight_option x = some o) : o.type = "direct" := by
  simp only [_convert_to_flight_option, Option.some.injEq] at h
  subst h
  rfl

/-- Every itinerary accumulated by the ANY-destination loop is direct. -/
theorem collectAnyFlights_type_direct (client : Client) :
    ∀ (requests : List FlightSearchRequest) (acc : List FlightOption),
      (∀ o ∈ acc, o.type = "direct") →
      ∀ o ∈ requests.foldl
          (fun acc dest_request =>
            match _search_direct_flights client dest_request with
            | .ok direct_flights => acc ++ direct_flights
            | .error _ => acc) acc,
        o.type = "direct" := by
  intro requests
  induction requests with
  | nil =>
    intro acc hacc o ho
    exact hacc o ho
  | cons r rs ih =>
    intro acc hacc o ho
    rw [List.foldl_cons] at ho
    refine ih _ ?_ o ho
    intro p hp
    cases hd : _search_direct_flights client r with
    | error e =>
      rw [hd] at hp
      exact hacc p hp
    | ok direct_flights =>
      rw [hd] at hp
      rcases List.mem_append.mp hp with hmem | hmem
      · exact hacc p hmem
      · unfold _search_direct_flights at hd
        cases hcs : client.search_flights r with
        | error e => rw [hcs] at hd; cases hd
        | ok l =>
          rw [hcs] at hd
          simp only [Except.ok.injEq] at hd
          subst hd
          rcases List.mem_filterMap.mp hmem with ⟨x, _, hx⟩
          exact convert_type_direct x p hx

/-- C6: the ANY-destination path issues at most 50 per-destination
sub-requests (exactly those for the first 50 directory entries), each with
`max_connections = 0`; the returned flights list has at most 100 entries,
`connecting_flights_count` is 0, and every returned itinerary is direct. -/
theorem C6_any_destination (client : Client) (request : FlightSearchRequest)
    (destinations : List String) (response : FlightSearchResponse)
    (hdest : client.get_destinations_from_origin request.origin = .ok destinations)
    (hresp : _search_any_destination client request = .ok response) :
    (∀ r ∈ anyDestRequests request destinations, r.max_connections = 0)
    ∧ anyDestRequests request destinations =
        anyDestRequests request (destinations.take 50)
    ∧ (anyDestRequests request destinations).length ≤ 50
    ∧ response.flights.length ≤ 100
    ∧ response.connecting_flights_count = 0
    ∧ (∀ o ∈ response.flights, o.type = "direct") := by
  have hr : response =
      { flights := (sortByPrice (collectAnyFlights client
            (anyDestRequests request destinations))).take 100
        search_request := request
        total_results := (collectAnyFlights client
            (anyDestRequests request destinations)).length
        direct_flights_count := (collectAnyFlights client
            (anyDestRequests request destinations)).length
        connecting_flights_count := 0
        error := none } := by
    unfold _search_any_destination at hresp
    rw [hdest] at hresp
    simp only [Except.ok.injEq] at hresp
    exact hresp.symm
  refine ⟨?_, ?_, ?_, ?_, ?_, ?_⟩
  · intro r hmem
    simp only [anyDestRequests, List.mem_map] at hmem
    obtain ⟨d, _, rfl⟩ := hmem
    rfl
  · simp [anyDestRequests, List.take_take]
  · simp only [anyDestRequests, List.length_map]
    exact List.length_take_le 50 destinations
  · rw [hr]
    exact List.length_take_le 100 _
  · rw [hr]
  · intro o ho
    rw [hr] at ho
    have ho' : o ∈ sortByPrice (collectAnyFlights client
        (anyDestRequests request destinations)) := List.mem_of_mem_take ho
    have ho'' : o ∈ collectAnyFlights client (anyDestRequests request destinations) :=
      List.mem_mergeSort.mp ho'
    exact collectAnyFlights_type_direct client (anyDestRequests request destinations)
      [] (by simp) o ho''

/-- A client with two destinations and no flights at all. -/
def emptyAnyClient : Client :=
  { search_flights := fun _ => .ok []
    get_destinations_from_origin := fun _ => .ok ["STN", "BGY"] }

/-- The response of `emptyAnyClient` on the ANY request. -/
def emptyAnyResponse : FlightSearchResponse :=
  { flights := [], search_request := anyRequest, total_results := 0,
    direct_flights_count := 0, connecting_flights_count := 0, error := none }

/-- The ANY search against `emptyAnyClient` yields the empty response. -/
theorem emptyAnyResponse_eq :
    _search_any_destination emptyAnyClient anyRequest = .ok emptyAnyResponse := by
  simp [_search_any_destination, emptyAnyClient, emptyAnyResponse, anyDestRequests,
    anyDestRequest, collectAnyFlights, sortByPrice, _search_direct_flights]

/-- C6 witness: the theorem instantiated at a concrete client and request. -/
theorem C6_any_destination_witness :
    emptyAnyResponse.flights.length ≤ 100
    ∧ emptyAnyResponse.connecting_flights_count = 0 :=
  ⟨(C6_any_destination emptyAnyClient anyRequest ["STN", "BGY"] emptyAnyResponse rfl
      emptyAnyResponse_eq).2.2.2.1,
    (C6_any_destination emptyAnyClient anyRequest ["STN", "BGY"] emptyAnyResponse rfl
      emptyAnyResponse_eq).2.2.2.2.1⟩
